import Mathlib

/-!
Verification of the container-creation coordination logic of the vhive CRI
shim (`cri/container_create.go`).  The Go code is shallowly embedded:
pure helpers become Lean functions, the stateful service becomes explicit
state passing over `ServiceState`, the two external collaborators
(stock runtime client, VM supervisor) become `Except`-valued parameters,
and the side effects of a run are recorded as a list of `Event`s so that
ordering claims ("publish happens before the join", "the store entry is
removed before the downstream call") are statements about the trace.
-/

/-- One environment entry of a container configuration
(`criapi.KeyValue`). -/
structure KeyValue where
  key : String
  value : String
deriving DecidableEq, Repr

/-- The part of `criapi.ContainerConfig` the shim inspects: the container
name (from the metadata block) and the environment list. -/
structure ContainerConfig where
  name : String
  envs : List KeyValue
deriving DecidableEq, Repr

/-- The part of `criapi.CreateContainerRequest` the shim inspects. -/
structure CreateContainerRequest where
  podSandboxId : String
  config : ContainerConfig
deriving DecidableEq, Repr

/-- The stock runtime's response; the shim only ever reads the returned
container identifier. -/
structure CreateContainerResponse where
  containerId : String
deriving DecidableEq, Repr

/-- The VM supervisor's boot response (`startVMResponse`): the guest IP. -/
structure StartVMResponse where
  guestIP : String
deriving DecidableEq, Repr

/-- A live VM instance handle (`funcInst`) as far as this file needs it. -/
structure FuncInstance where
  startVMResponse : StartVMResponse
deriving DecidableEq, Repr

/-- `VMConfig` from the Go source: guest IP and guest port of a booted
VM, stored per pod sandbox for the queue-proxy path. -/
structure VMConfig where
  guestIP : String
  guestPort : String
deriving DecidableEq, Repr

/-- The mutable state of the service: the Pod VM Config Store
(`podVMConfigs`) and the Active VM Registry (`activeVMs`), both keyed by
strings, modelled as association lists. -/
structure ServiceState where
  podVMConfigs : List (String × VMConfig)
  activeVMs : List (String × FuncInstance)
deriving DecidableEq, Repr

-- Constants from the Go source.
def userContainerName : String := "user-container"
def queueProxyName : String := "queue-proxy"
def revisionEnv : String := "K_REVISION"
def guestIPEnv : String := "GUEST_ADDR"
def guestPortEnv : String := "GUEST_PORT"
def guestImageEnv : String := "GUEST_IMAGE"
def guestMemorySizeMibEnv : String := "GUEST_MEM_SIZE_MIB"
def defaultMemorySizeMib : Nat := 256
def guestvCPUCount : String := "GUEST_VCPU_COUNT"
def defaultvCPUCount : Nat := 1
def guestPortValue : String := "50051"

/-- First-match scan of an environment list for a key: the embedding of
the `for _, kv := range envs { if kv.GetKey() == k { return ... } }`
loops of all four getters. -/
def lookupEnv (envs : List KeyValue) (key : String) : Option String :=
  match envs with
  | [] => none
  | kv :: rest => if kv.key = key then some kv.value else lookupEnv rest key

/-- Numeric value of a list of decimal digit characters. -/
def digitsVal (l : List Char) : Nat :=
  l.foldl (fun acc c => acc * 10 + (c.toNat - 48)) 0

/-- Embedding of Go `strconv.Atoi`: optional leading sign, then at least
one decimal digit; rejects anything else, and values outside the 64-bit
signed range.  Returns a mathematical integer. -/
def atoi (s : String) : Except String Int :=
  match s.data with
  | [] => .error "invalid syntax"
  | c :: rest =>
    let (sign, ds) : Int × List Char :=
      if c = '-' then (-1, rest)
      else if c = '+' then (1, rest) else (1, c :: rest)
    if ds.isEmpty then .error "invalid syntax"
    else if ds.all Char.isDigit then
      let v : Int := sign * (digitsVal ds : Int)
      if v < -9223372036854775808 ∨ v > 9223372036854775807 then .error "value out of range"
      else .ok v
    else .error "invalid syntax"

/-- `getGuestImage` from the source: first `GUEST_IMAGE` entry wins, the
value is returned as-is (even empty); only a missing key is an error. -/
def getGuestImage (config : ContainerConfig) : Except String String :=
  match lookupEnv config.envs guestImageEnv with
  | some v => .ok v
  | none => .error "failed to provide non empty guest image in user container config"

/-- `getRevisionId` from the source: first `K_REVISION` entry wins; a
missing key yields the same (copy-pasted) error message as a missing
guest image. -/
def getRevisionId (config : ContainerConfig) : Except String String :=
  match lookupEnv config.envs revisionEnv with
  | some v => .ok v
  | none => .error "failed to provide non empty guest image in user container config"

/-- `getMemorySize` from the source: absent key defaults to 256; a
present value goes through `strconv.Atoi` and is then converted to
`uint32`, i.e. reduced modulo 2^32 (negative values wrap). -/
def getMemorySize (config : ContainerConfig) : Except String Nat :=
  match lookupEnv config.envs guestMemorySizeMibEnv with
  | some v =>
    match atoi v with
    | .ok memSize => .ok ((memSize % (4294967296 : Int)).toNat)
    | .error e => .error e
  | none => .ok defaultMemorySizeMib

/-- `getvCPUCount` from the source: absent key defaults to 1; a present
value goes through `strconv.Atoi` and is converted to `uint32`. -/
def getvCPUCount (config : ContainerConfig) : Except String Nat :=
  match lookupEnv config.envs guestvCPUCount with
  | some v =>
    match atoi v with
    | .ok vCPUCount => .ok ((vCPUCount % (4294967296 : Int)).toNat)
    | .error e => .error e
  | none => .ok defaultvCPUCount

/-- Modelled from the spec: `Service.insertPodVMConfig` is not under
`src/`; §4.2 specifies `put(podSandboxID, config)` as insert-or-
overwrite.  Embedded as cons after removing any previous entry for the
same key. -/
def insertPodVMConfig (st : ServiceState) (k : String) (v : VMConfig) : ServiceState :=
  { st with podVMConfigs := (k, v) :: st.podVMConfigs.filter (fun p => !(p.1 == k)) }

/-- Modelled from the spec: `Service.getPodVMConfig` is not under
`src/`; §4.2 and §4.4 specify a lookup that fails with a "no VM
configuration available" error when the key is absent. -/
def getPodVMConfig (st : ServiceState) (k : String) : Except String VMConfig :=
  match st.podVMConfigs.lookup k with
  | some v => .ok v
  | none => .error "no VM configuration available"

/-- Modelled from the spec: `Service.removePodVMConfig` is not under
`src/`; §4.2 specifies `remove(podSandboxID)` as an idempotent delete. -/
def removePodVMConfig (st : ServiceState) (k : String) : ServiceState :=
  { st with podVMConfigs := st.podVMConfigs.filter (fun p => !(p.1 == k)) }

/-- Modelled from the spec: `coordinator.insertActive` is not under
`src/`; §4.3 specifies an insert that fails if the container identifier
is already present (write-once per key). -/
def insertActive (st : ServiceState) (cid : String) (fi : FuncInstance) :
    Except String ServiceState :=
  match st.activeVMs.lookup cid with
  | some _ => .error "container ID already registered in active VM registry"
  | none => .ok { st with activeVMs := (cid, fi) :: st.activeVMs }

/-- Observable side effects of one coordinator run, in program order:
the spawn of the placeholder-container task (which unconditionally calls
the stock runtime client with the recorded request), the VM supervisor
call with its arguments, the publish into the Pod VM Config Store, the
join on the placeholder task (`<-stockDone`), and the removal of a Pod
VM Config Store entry on the queue-proxy path. -/
inductive Event where
  | callStock (r : CreateContainerRequest)
  | callStartVM (image revision : String) (memSizeMib vCPUCnt : Nat)
  | publishPodCfg (sandbox : String) (cfg : VMConfig)
  | awaitTaskA
  | removePodCfg (sandbox : String)
deriving DecidableEq, Repr

/-- `createUserContainer` from the source.  The two external calls'
outcomes are parameters (`stockResult` for the goroutine running the
stock client, `vmResult` for `coordinator.startVM`); the function
returns the response/error, the final state, and the event trace.  The
goroutine is spawned before any extraction, so `Event.callStock r` is
always first in the trace. -/
def createUserContainer (st : ServiceState)
    (stockResult : Except String CreateContainerResponse)
    (vmResult : Except String FuncInstance) (r : CreateContainerRequest) :
    Except String CreateContainerResponse × ServiceState × List Event :=
  let ev0 : List Event := [Event.callStock r]
  match getGuestImage r.config with
  | .error e => (.error e, st, ev0)
  | .ok guestImage =>
  match getRevisionId r.config with
  | .error e => (.error e, st, ev0)
  | .ok revision =>
  match getMemorySize r.config with
  | .error e => (.error e, st, ev0)
  | .ok memSizeMib =>
  match getvCPUCount r.config with
  | .error e => (.error e, st, ev0)
  | .ok vCPUCnt =>
  let ev1 := ev0 ++ [Event.callStartVM guestImage revision memSizeMib vCPUCnt]
  match vmResult with
  | .error e => (.error e, st, ev1)
  | .ok funcInst =>
    let vmConfig : VMConfig :=
      { guestIP := funcInst.startVMResponse.guestIP, guestPort := guestPortValue }
    let st1 := insertPodVMConfig st r.podSandboxId vmConfig
    let ev2 := ev1 ++ [Event.publishPodCfg r.podSandboxId vmConfig, Event.awaitTaskA]
    match stockResult with
    | .error e => (.error e, st1, ev2)
    | .ok stockResp =>
      match insertActive st1 stockResp.containerId funcInst with
      | .error e => (.error e, st1, ev2)
      | .ok st2 => (.ok stockResp, st2, ev2)

/-- The queue-proxy request after env-var injection: the VM's guest IP
and guest port are appended to the request's environment list under the
fixed names `GUEST_ADDR` and `GUEST_PORT`. -/
def injectGuestEnv (r : CreateContainerRequest) (vmConfig : VMConfig) :
    CreateContainerRequest :=
  { r with config :=
    { r.config with envs := r.config.envs ++
      [{ key := guestIPEnv, value := vmConfig.guestIP },
       { key := guestPortEnv, value := vmConfig.guestPort }] } }

/-- `createQueueProxy` from the source: look up the pod's VM config
(failing fast when absent, with no stock-runtime call), remove the entry,
inject the guest address/port env vars, and forward to the stock client,
whose outcome is the parameter `stockResult`. -/
def createQueueProxy (st : ServiceState)
    (stockResult : Except String CreateContainerResponse)
    (r : CreateContainerRequest) :
    Except String CreateContainerResponse × ServiceState × List Event :=
  match getPodVMConfig st r.podSandboxId with
  | .error e => (.error e, st, [])
  | .ok vmConfig =>
    let st1 := removePodVMConfig st r.podSandboxId
    let r1 := injectGuestEnv r vmConfig
    let ev : List Event := [Event.removePodCfg r.podSandboxId, Event.callStock r1]
    match stockResult with
    | .error e => (.error e, st1, ev)
    | .ok resp => (.ok resp, st1, ev)

/-- `Service.CreateContainer` from the source: dispatch on the container
name — the workload name goes to `createUserContainer`, the sidecar name
to `createQueueProxy`, anything else straight to the stock client. -/
def CreateContainer (st : ServiceState)
    (stockResult : Except String CreateContainerResponse)
    (vmResult : Except String FuncInstance) (r : CreateContainerRequest) :
    Except String CreateContainerResponse × ServiceState × List Event :=
  if r.config.name = userContainerName then
    createUserContainer st stockResult vmResult r
  else if r.config.name = queueProxyName then
    createQueueProxy st stockResult r
  else
    (stockResult, st, [Event.callStock r])

/-- The four launch-parameter extractions in source order, stopping at
the first failure; used to factor the theorems about
`createUserContainer`. -/
def extractLaunchParams (config : ContainerConfig) :
    Except String (String × String × Nat × Nat) :=
  match getGuestImage config with
  | .error e => .error e
  | .ok guestImage =>
  match getRevisionId config with
  | .error e => .error e
  | .ok revision =>
  match getMemorySize config with
  | .error e => .error e
  | .ok memSizeMib =>
  match getvCPUCount config with
  | .error e => .error e
  | .ok vCPUCnt => .ok (guestImage, revision, memSizeMib, vCPUCnt)

/-- Number of entries of an association list carrying a given key. -/
def countKey (l : List (String × VMConfig)) (k : String) : Nat :=
  match l with
  | [] => 0
  | p :: rest => (if p.1 = k then 1 else 0) + countKey rest k

/-- Characterization of `createUserContainer` with the four extractions
factored through `extractLaunchParams`: the goroutine spawn is recorded
first; an extraction failure returns it alone; a VM-boot failure returns
before the publish and before the join; VM-boot success publishes the
pod VM config and joins, then dispatches on the placeholder task's
outcome and, on success, on the registry insert. -/
theorem createUserContainer_eq (st : ServiceState)
    (sr : Except String CreateContainerResponse)
    (vr : Except String FuncInstance) (r : CreateContainerRequest) :
    createUserContainer st sr vr r =
      match extractLaunchParams r.config with
      | .error e => (.error e, st, [Event.callStock r])
      | .ok (g, rev, m, c) =>
        match vr with
        | .error e => (.error e, st, [Event.callStock r, Event.callStartVM g rev m c])
        | .ok fi =>
          match sr with
          | .error e =>
            (.error e,
             insertPodVMConfig st r.podSandboxId
               { guestIP := fi.startVMResponse.guestIP, guestPort := guestPortValue },
             [Event.callStock r, Event.callStartVM g rev m c,
              Event.publishPodCfg r.podSandboxId
                { guestIP := fi.startVMResponse.guestIP, guestPort := guestPortValue },
              Event.awaitTaskA])
          | .ok resp =>
            match insertActive
                (insertPodVMConfig st r.podSandboxId
                  { guestIP := fi.startVMResponse.guestIP, guestPort := guestPortValue })
                resp.containerId fi with
            | .error e =>
              (.error e,
               insertPodVMConfig st r.podSandboxId
                 { guestIP := fi.startVMResponse.guestIP, guestPort := guestPortValue },
               [Event.callStock r, Event.callStartVM g rev m c,
                Event.publishPodCfg r.podSandboxId
                  { guestIP := fi.startVMResponse.guestIP, guestPort := guestPortValue },
                Event.awaitTaskA])
            | .ok st2 =>
              (.ok resp, st2,
               [Event.callStock r, Event.callStartVM g rev m c,
                Event.publishPodCfg r.podSandboxId
                  { guestIP := fi.startVMResponse.guestIP, guestPort := guestPortValue },
                Event.awaitTaskA]) := by
  unfold createUserContainer extractLaunchParams
  cases getGuestImage r.config <;> cases getRevisionId r.config <;>
    cases getMemorySize r.config <;> cases getvCPUCount r.config <;>
    cases vr <;> cases sr <;> simp

/-- Looking up the just-inserted key of the Pod VM Config Store yields
the just-inserted value. -/
theorem lookup_insertPod (st : ServiceState) (k : String) (v : VMConfig) :
    (insertPodVMConfig st k v).podVMConfigs.lookup k = some v := by
  simp [insertPodVMConfig, List.lookup]

/-- Filtering out a key from an association list makes its lookup fail. -/
theorem lookup_filterOut {β : Type} (l : List (String × β)) (k : String) :
    (l.filter (fun p => !(p.1 == k))).lookup k = none := by
  induction l with
  | nil => rfl
  | cons p rest ih =>
    by_cases h : p.1 = k
    · simpa [List.filter_cons, h] using ih
    · have hk : (k == p.1) = false := beq_eq_false_iff_ne.mpr (Ne.symm h)
      simp [List.filter_cons, beq_eq_false_iff_ne.mpr h, List.lookup, hk, ih]

/-- Filtering out a key from an association list leaves no entry with
that key. -/
theorem countKey_filterOut (l : List (String × VMConfig)) (k : String) :
    countKey (l.filter (fun p => !(p.1 == k))) k = 0 := by
  induction l with
  | nil => rfl
  | cons p rest ih =>
    by_cases h : p.1 = k
    · simpa [List.filter_cons, h] using ih
    · simp [List.filter_cons, beq_eq_false_iff_ne.mpr h, countKey, h, ih]

/-- After an insert, the Pod VM Config Store holds exactly one entry for
the inserted key. -/
theorem countKey_insertPod (st : ServiceState) (k : String) (v : VMConfig) :
    countKey (insertPodVMConfig st k v).podVMConfigs k = 1 := by
  simp [insertPodVMConfig, countKey, countKey_filterOut]

/-- In the VM-boot-success case the trace is exactly spawn, VM call,
publish, join — in that order — whatever the placeholder task's outcome,
and the Pod VM Config Store holds the freshly published entry. -/
theorem userContainer_vm_ok_parts (st : ServiceState)
    (sr : Except String CreateContainerResponse) (fi : FuncInstance)
    (r : CreateContainerRequest) (g rev : String) (m c : Nat)
    (hx : extractLaunchParams r.config = .ok (g, rev, m, c)) :
    (createUserContainer st sr (.ok fi) r).2.2 =
      [Event.callStock r, Event.callStartVM g rev m c,
       Event.publishPodCfg r.podSandboxId
         { guestIP := fi.startVMResponse.guestIP, guestPort := guestPortValue },
       Event.awaitTaskA] ∧
    (createUserContainer st sr (.ok fi) r).2.1.podVMConfigs =
      (r.podSandboxId,
        ({ guestIP := fi.startVMResponse.guestIP, guestPort := guestPortValue } : VMConfig)) ::
        st.podVMConfigs.filter (fun p => !(p.1 == r.podSandboxId)) := by
  simp only [createUserContainer_eq, hx]
  rcases sr with e | resp
  · simp [insertPodVMConfig]
  · rcases hl : List.lookup resp.containerId st.activeVMs with _ | v <;>
      simp [insertActive, insertPodVMConfig, hl]

/-- In the both-success case the coordinator's result and the Active VM
Registry are decided by the duplicate check of the registry insert. -/
theorem userContainer_both_ok_result (st : ServiceState) (fi : FuncInstance)
    (r : CreateContainerRequest) (resp : CreateContainerResponse)
    (g rev : String) (m c : Nat)
    (hx : extractLaunchParams r.config = .ok (g, rev, m, c)) :
    (st.activeVMs.lookup resp.containerId = none →
      (createUserContainer st (.ok resp) (.ok fi) r).1 = .ok resp ∧
      (createUserContainer st (.ok resp) (.ok fi) r).2.1.activeVMs =
        (resp.containerId, fi) :: st.activeVMs) ∧
    (∀ v, st.activeVMs.lookup resp.containerId = some v →
      (createUserContainer st (.ok resp) (.ok fi) r).1 =
        .error "container ID already registered in active VM registry" ∧
      (createUserContainer st (.ok resp) (.ok fi) r).2.1.activeVMs = st.activeVMs) := by
  simp only [createUserContainer_eq, hx]
  rcases hl : List.lookup resp.containerId st.activeVMs with _ | v <;>
    simp [insertActive, insertPodVMConfig, hl]

-- Concrete fixtures used by the closed witness and counterexample
-- theorems below.
def st0 : ServiceState := { podVMConfigs := [], activeVMs := [] }

def fi0 : FuncInstance := { startVMResponse := { guestIP := "10.0.0.7" } }

def resp0 : CreateContainerResponse := { containerId := "cid-1" }

def rNoImage : CreateContainerRequest :=
  { podSandboxId := "pod-1",
    config := { name := "user-container",
                envs := [{ key := "K_REVISION", value := "rev-7" }] } }

def rGood : CreateContainerRequest :=
  { podSandboxId := "pod-1",
    config := { name := "user-container",
                envs := [{ key := "GUEST_IMAGE", value := "fn:v1" },
                         { key := "K_REVISION", value := "rev-7" }] } }

def rProxy : CreateContainerRequest :=
  { podSandboxId := "pod-1",
    config := { name := "queue-proxy", envs := [] } }

def cfgNegMem : ContainerConfig :=
  { name := "user-container",
    envs := [{ key := "GUEST_MEM_SIZE_MIB", value := "-5" }] }

/-- C1 counterexample: on a workload request missing the image-reference
variable, the extraction error is returned, yet the Stock Runtime
Client's createContainer has been invoked (the placeholder-container
goroutine is spawned before extraction), contradicting the claim that no
placeholder container creation is started. -/
theorem extraction_failure_still_starts_placeholder :
    (CreateContainer st0 (.ok resp0) (.ok fi0) rNoImage).1 =
      .error "failed to provide non empty guest image in user container config" ∧
    Event.callStock rNoImage ∈ (CreateContainer st0 (.ok resp0) (.ok fi0) rNoImage).2.2 := by
  constructor
  · rfl
  · have h : (CreateContainer st0 (.ok resp0) (.ok fi0) rNoImage).2.2 =
        [Event.callStock rNoImage] := rfl
    rw [h]
    exact List.mem_singleton.mpr rfl

/-- C1 (amended): when launch-parameter extraction fails, createContainer
on a workload request returns the extraction error, never invokes the VM
Supervisor's startVM, publishes nothing and leaves the state unchanged —
but the placeholder container creation has already been started (the
spawn is the sole event of the trace). -/
theorem createContainer_extraction_error_aborts_vm_path
    (st : ServiceState) (sr : Except String CreateContainerResponse)
    (vr : Except String FuncInstance) (r : CreateContainerRequest) (e : String)
    (hname : r.config.name = userContainerName)
    (hx : extractLaunchParams r.config = .error e) :
    CreateContainer st sr vr r = (.error e, st, [Event.callStock r]) := by
  unfold CreateContainer
  rw [if_pos hname]
  simp only [createUserContainer_eq, hx]

/-- C1 witness: concrete run of the amended theorem. -/
theorem createContainer_extraction_error_aborts_vm_path_witness :
    CreateContainer st0 (.ok resp0) (.ok fi0) rNoImage =
      (.error "failed to provide non empty guest image in user container config", st0,
       [Event.callStock rNoImage]) :=
  createContainer_extraction_error_aborts_vm_path st0 (.ok resp0) (.ok fi0) rNoImage
    "failed to provide non empty guest image in user container config" rfl rfl

/-- C2: the Active VM Registry changes only when both the placeholder
creation and the VM boot succeed; on a VM-boot failure the VM-boot error
is returned with the registry unchanged, and on a placeholder failure
after a successful boot the placeholder error is returned with the
registry unchanged. -/
theorem createUserContainer_registry_unchanged_on_failure
    (st : ServiceState) (sr : Except String CreateContainerResponse)
    (vr : Except String FuncInstance) (r : CreateContainerRequest) :
    ((createUserContainer st sr vr r).2.1.activeVMs ≠ st.activeVMs →
      ∃ resp fi, sr = .ok resp ∧ vr = .ok fi) ∧
    (∀ q e, extractLaunchParams r.config = .ok q → vr = .error e →
      (createUserContainer st sr vr r).1 = .error e ∧
      (createUserContainer st sr vr r).2.1.activeVMs = st.activeVMs) ∧
    (∀ q fi e, extractLaunchParams r.config = .ok q → vr = .ok fi → sr = .error e →
      (createUserContainer st sr vr r).1 = .error e ∧
      (createUserContainer st sr vr r).2.1.activeVMs = st.activeVMs) := by
  rcases hx : extractLaunchParams r.config with e | ⟨g, rev, m, c⟩ <;>
    simp only [createUserContainer_eq, hx] <;>
    rcases vr with e1 | fi <;> rcases sr with e2 | resp <;>
    simp [insertPodVMConfig, insertActive]

/-- C2 witness: VM boot fails on a well-formed workload request; the
VM-boot error comes back and the registry is untouched. -/
theorem createUserContainer_registry_unchanged_on_failure_witness :
    (createUserContainer st0 (.ok resp0) (.error "vm boot failed") rGood).1 =
      .error "vm boot failed" ∧
    (createUserContainer st0 (.ok resp0) (.error "vm boot failed") rGood).2.1.activeVMs =
      st0.activeVMs :=
  (createUserContainer_registry_unchanged_on_failure st0 (.ok resp0)
      (.error "vm boot failed") rGood).2.1 ("fn:v1", "rev-7", 256, 1) "vm boot failed" rfl rfl

/-- C3 counterexample: the value "-5" for the memory-size variable is
not rejected as a failed unsigned parse; it parses via the signed
Atoi and wraps through the uint32 conversion to 4294967291. -/
theorem getMemorySize_negative_value_wraps :
    getMemorySize cfgNegMem = .ok 4294967291 := rfl

/-- C3 (amended): memory size and vCPU count are read by first-match
scan; an absent key defaults to 256 resp. 1; a present value is parsed
by the signed-integer Atoi — any Atoi failure is a hard error, never
defaulted — and its result is converted to uint32, i.e. reduced modulo
2^32, so negative values wrap instead of erroring. -/
theorem memory_vcpu_extraction_policy (cfg : ContainerConfig) :
    (lookupEnv cfg.envs guestMemorySizeMibEnv = none → getMemorySize cfg = .ok 256) ∧
    (lookupEnv cfg.envs guestvCPUCount = none → getvCPUCount cfg = .ok 1) ∧
    (∀ s e, lookupEnv cfg.envs guestMemorySizeMibEnv = some s → atoi s = .error e →
      getMemorySize cfg = .error e) ∧
    (∀ s n, lookupEnv cfg.envs guestMemorySizeMibEnv = some s → atoi s = .ok n →
      getMemorySize cfg = .ok ((n % 4294967296).toNat)) ∧
    (∀ s e, lookupEnv cfg.envs guestvCPUCount = some s → atoi s = .error e →
      getvCPUCount cfg = .error e) ∧
    (∀ s n, lookupEnv cfg.envs guestvCPUCount = some s → atoi s = .ok n →
      getvCPUCount cfg = .ok ((n % 4294967296).toNat)) := by
  refine ⟨fun h => by simp [getMemorySize, h, defaultMemorySizeMib],
          fun h => by simp [getvCPUCount, h, defaultvCPUCount],
          fun s e hs ha => by simp [getMemorySize, hs, ha],
          fun s n hs ha => by simp [getMemorySize, hs, ha],
          fun s e hs ha => by simp [getvCPUCount, hs, ha],
          fun s n hs ha => by simp [getvCPUCount, hs, ha]⟩

/-- C3 witness: a request without numeric variables gets the default
memory size. -/
theorem memory_vcpu_extraction_policy_witness :
    getMemorySize rGood.config = .ok 256 :=
  (memory_vcpu_extraction_policy rGood.config).1 rfl

/-- C4: when the VM boot fails after successful extraction, the VM-boot
error is returned, the trace never reaches the join on the placeholder
task, and the outcome is independent of the placeholder task's result. -/
theorem vm_boot_failure_short_circuit
    (st : ServiceState) (sr : Except String CreateContainerResponse)
    (r : CreateContainerRequest) (g rev : String) (m c : Nat) (e : String)
    (hx : extractLaunchParams r.config = .ok (g, rev, m, c)) :
    (createUserContainer st sr (.error e) r).1 = .error e ∧
    Event.awaitTaskA ∉ (createUserContainer st sr (.error e) r).2.2 ∧
    ∀ sr', createUserContainer st sr' (.error e) r = createUserContainer st sr (.error e) r := by
  simp only [createUserContainer_eq, hx]
  simp

/-- C4 witness: concrete VM-boot failure. -/
theorem vm_boot_failure_short_circuit_witness :
    (createUserContainer st0 (.ok resp0) (.error "vm error") rGood).1 = .error "vm error" :=
  (vm_boot_failure_short_circuit st0 (.ok resp0) rGood "fn:v1" "rev-7" 256 1 "vm error" rfl).1

/-- C5: on VM-boot success the pod VM config (guest IP of the booted VM
and the fixed port "50051") is published under the request's pod-sandbox
identifier, and the publish event strictly precedes the join on the
placeholder task in the trace. -/
theorem publish_before_await
    (st : ServiceState) (sr : Except String CreateContainerResponse)
    (fi : FuncInstance) (r : CreateContainerRequest) (g rev : String) (m c : Nat)
    (hx : extractLaunchParams r.config = .ok (g, rev, m, c)) :
    (∃ t, (createUserContainer st sr (.ok fi) r).2.2 =
        [Event.callStock r, Event.callStartVM g rev m c,
         Event.publishPodCfg r.podSandboxId
           { guestIP := fi.startVMResponse.guestIP, guestPort := guestPortValue },
         Event.awaitTaskA] ++ t) ∧
    (createUserContainer st sr (.ok fi) r).2.1.podVMConfigs.lookup r.podSandboxId =
      some { guestIP := fi.startVMResponse.guestIP, guestPort := guestPortValue } := by
  obtain ⟨htr, hst⟩ := userContainer_vm_ok_parts st sr fi r g rev m c hx
  refine ⟨⟨[], by simp [htr]⟩, ?_⟩
  rw [hst]
  simp [List.lookup]

/-- C5 witness: concrete successful boot publishes the config. -/
theorem publish_before_await_witness :
    (createUserContainer st0 (.ok resp0) (.ok fi0) rGood).2.1.podVMConfigs.lookup
        rGood.podSandboxId =
      some { guestIP := fi0.startVMResponse.guestIP, guestPort := guestPortValue } :=
  (publish_before_await st0 (.ok resp0) fi0 rGood "fn:v1" "rev-7" 256 1 rfl).2

/-- C6: when both the placeholder creation and the VM boot succeed, the
pair (container identifier from the placeholder response, VM instance)
is inserted into the Active VM Registry and the placeholder response is
returned unchanged; a duplicate container identifier makes the insert
fail and that error is returned. -/
theorem both_success_insert_and_response
    (st : ServiceState) (fi : FuncInstance) (r : CreateContainerRequest)
    (resp : CreateContainerResponse) (g rev : String) (m c : Nat)
    (hx : extractLaunchParams r.config = .ok (g, rev, m, c)) :
    (st.activeVMs.lookup resp.containerId = none →
      (createUserContainer st (.ok resp) (.ok fi) r).1 = .ok resp ∧
      (createUserContainer st (.ok resp) (.ok fi) r).2.1.activeVMs =
        (resp.containerId, fi) :: st.activeVMs) ∧
    (∀ v, st.activeVMs.lookup resp.containerId = some v →
      (createUserContainer st (.ok resp) (.ok fi) r).1 =
        .error "container ID already registered in active VM registry") :=
  ⟨fun h => (userContainer_both_ok_result st fi r resp g rev m c hx).1 h,
   fun v h => ((userContainer_both_ok_result st fi r resp g rev m c hx).2 v h).1⟩

/-- C6 witness: concrete double success registers the pair and returns
the placeholder response. -/
theorem both_success_insert_and_response_witness :
    (createUserContainer st0 (.ok resp0) (.ok fi0) rGood).1 = .ok resp0 ∧
    (createUserContainer st0 (.ok resp0) (.ok fi0) rGood).2.1.activeVMs =
      [(resp0.containerId, fi0)] :=
  (both_success_insert_and_response st0 fi0 rGood resp0 "fn:v1" "rev-7" 256 1 rfl).1 rfl

/-- C7: a successful workload creation leaves exactly one pod VM config
entry for its sandbox; the first sidecar request for that sandbox
removes the entry and forwards the request with the guest address and
guest port appended, returning the stock outcome verbatim; afterwards
the entry is gone and a second sidecar request for the same sandbox
fails with the "no VM configuration available" error. -/
theorem workload_sidecar_roundtrip
    (st : ServiceState) (fi : FuncInstance)
    (r1 r2 r3 : CreateContainerRequest) (resp1 : CreateContainerResponse)
    (g rev : String) (m c : Nat)
    (hx : extractLaunchParams r1.config = .ok (g, rev, m, c))
    (h2 : r2.podSandboxId = r1.podSandboxId)
    (h3 : r3.podSandboxId = r1.podSandboxId) :
    countKey (createUserContainer st (.ok resp1) (.ok fi) r1).2.1.podVMConfigs
        r1.podSandboxId = 1 ∧
    (∀ sr', createQueueProxy (createUserContainer st (.ok resp1) (.ok fi) r1).2.1 sr' r2 =
      (sr',
       removePodVMConfig (createUserContainer st (.ok resp1) (.ok fi) r1).2.1
         r2.podSandboxId,
       [Event.removePodCfg r2.podSandboxId,
        Event.callStock (injectGuestEnv r2
          { guestIP := fi.startVMResponse.guestIP, guestPort := guestPortValue })])) ∧
    (removePodVMConfig (createUserContainer st (.ok resp1) (.ok fi) r1).2.1
        r2.podSandboxId).podVMConfigs.lookup r1.podSandboxId = none ∧
    (∀ sr', createQueueProxy
        (removePodVMConfig (createUserContainer st (.ok resp1) (.ok fi) r1).2.1
          r2.podSandboxId) sr' r3 =
      (.error "no VM configuration available",
       removePodVMConfig (createUserContainer st (.ok resp1) (.ok fi) r1).2.1
         r2.podSandboxId,
       [])) := by
  obtain ⟨-, hst⟩ := userContainer_vm_ok_parts st (.ok resp1) fi r1 g rev m c hx
  have hget : getPodVMConfig (createUserContainer st (.ok resp1) (.ok fi) r1).2.1
      r2.podSandboxId =
      .ok { guestIP := fi.startVMResponse.guestIP, guestPort := guestPortValue } := by
    unfold getPodVMConfig
    rw [h2, hst]
    simp [List.lookup]
  have hnone : (removePodVMConfig (createUserContainer st (.ok resp1) (.ok fi) r1).2.1
      r2.podSandboxId).podVMConfigs.lookup r1.podSandboxId = none := by
    unfold removePodVMConfig
    rw [h2]
    exact lookup_filterOut _ _
  refine ⟨?_, ?_, hnone, ?_⟩
  · rw [hst]
    simp [countKey, countKey_filterOut]
  · intro sr'
    unfold createQueueProxy
    rw [hget]
    rcases sr' with e | resp <;> simp
  · intro sr'
    unfold createQueueProxy getPodVMConfig
    rw [h3, hnone]

/-- C7 witness: a concrete workload success followed by two sidecar
requests for the same pod sandbox; the second one fails. -/
theorem workload_sidecar_roundtrip_witness :
    countKey (createUserContainer st0 (.ok resp0) (.ok fi0) rGood).2.1.podVMConfigs
        rGood.podSandboxId = 1 ∧
    (removePodVMConfig (createUserContainer st0 (.ok resp0) (.ok fi0) rGood).2.1
        rProxy.podSandboxId).podVMConfigs.lookup rGood.podSandboxId = none :=
  ⟨(workload_sidecar_roundtrip st0 fi0 rGood rProxy rProxy resp0 "fn:v1" "rev-7" 256 1
      rfl rfl rfl).1,
   (workload_sidecar_roundtrip st0 fi0 rGood rProxy rProxy resp0 "fn:v1" "rev-7" 256 1
      rfl rfl rfl).2.2.1⟩

/-- C8: a sidecar request whose pod sandbox has no stored VM config
fails immediately with the "no VM configuration available" error, makes
no stock-runtime call (empty trace) and leaves the state unchanged. -/
theorem sidecar_no_config_fails_fast
    (st : ServiceState) (sr : Except String CreateContainerResponse)
    (r : CreateContainerRequest)
    (h : st.podVMConfigs.lookup r.podSandboxId = none) :
    createQueueProxy st sr r = (.error "no VM configuration available", st, []) := by
  unfold createQueueProxy getPodVMConfig
  rw [h]

/-- C8 witness: concrete sidecar request against the empty store. -/
theorem sidecar_no_config_fails_fast_witness :
    createQueueProxy st0 (.ok resp0) rProxy =
      (.error "no VM configuration available", st0, []) :=
  sidecar_no_config_fails_fast st0 (.ok resp0) rProxy rfl

/-- C9: on the sidecar path the store entry is removed before the stock
call (the removal event precedes the call event in the trace); when the
downstream creation fails the entry stays deleted — the state change is
not rolled back — and any repeat of the same sidecar request fails with
the "no VM configuration available" error. -/
theorem sidecar_remove_not_rolled_back
    (st : ServiceState) (r : CreateContainerRequest) (cfg : VMConfig) (e : String)
    (h : st.podVMConfigs.lookup r.podSandboxId = some cfg) :
    (createQueueProxy st (.error e) r).1 = .error e ∧
    (createQueueProxy st (.error e) r).2.2 =
      [Event.removePodCfg r.podSandboxId, Event.callStock (injectGuestEnv r cfg)] ∧
    (createQueueProxy st (.error e) r).2.1.podVMConfigs.lookup r.podSandboxId = none ∧
    ∀ sr', createQueueProxy (createQueueProxy st (.error e) r).2.1 sr' r =
      (.error "no VM configuration available", (createQueueProxy st (.error e) r).2.1, []) := by
  have hq : createQueueProxy st (.error e) r =
      (.error e, removePodVMConfig st r.podSandboxId,
       [Event.removePodCfg r.podSandboxId, Event.callStock (injectGuestEnv r cfg)]) := by
    unfold createQueueProxy getPodVMConfig
    rw [h]
  have hnone : (removePodVMConfig st r.podSandboxId).podVMConfigs.lookup r.podSandboxId
      = none := lookup_filterOut _ _
  rw [hq]
  refine ⟨rfl, rfl, hnone, fun sr' => ?_⟩
  unfold createQueueProxy getPodVMConfig
  rw [hnone]

/-- C9 witness: concrete sidecar request whose downstream creation
fails; the entry is consumed anyway. -/
theorem sidecar_remove_not_rolled_back_witness :
    (createQueueProxy
        { podVMConfigs := [("pod-1", { guestIP := "10.0.0.7", guestPort := "50051" })],
          activeVMs := [] } (.error "stock failed") rProxy).2.1.podVMConfigs.lookup
      rProxy.podSandboxId = none :=
  (sidecar_remove_not_rolled_back
      { podVMConfigs := [("pod-1", { guestIP := "10.0.0.7", guestPort := "50051" })],
        activeVMs := [] } rProxy { guestIP := "10.0.0.7", guestPort := "50051" }
      "stock failed" rfl).2.2.1

/-- C10: an environment entry whose key matches the image (or revision)
variable with an empty value is accepted — the getter returns the value
as-is and the workload path proceeds to the VM boot with that empty
image — while an entirely absent key is the only error case, and the
missing-revision error message is identical to the missing-image one. -/
theorem getters_accept_empty_value (cfg : ContainerConfig) :
    (∀ s, lookupEnv cfg.envs guestImageEnv = some s → getGuestImage cfg = .ok s) ∧
    (lookupEnv cfg.envs guestImageEnv = none →
      getGuestImage cfg =
        .error "failed to provide non empty guest image in user container config") ∧
    (∀ s, lookupEnv cfg.envs revisionEnv = some s → getRevisionId cfg = .ok s) ∧
    (lookupEnv cfg.envs revisionEnv = none →
      getRevisionId cfg =
        .error "failed to provide non empty guest image in user container config") ∧
    (∀ st sr vr (r : CreateContainerRequest) rev2 m c,
      extractLaunchParams r.config = .ok ("", rev2, m, c) →
      Event.callStartVM "" rev2 m c ∈ (createUserContainer st sr vr r).2.2) := by
  refine ⟨fun s hs => by simp [getGuestImage, hs],
          fun hs => by simp [getGuestImage, hs],
          fun s hs => by simp [getRevisionId, hs],
          fun hs => by simp [getRevisionId, hs],
          fun st sr vr r rev2 m c hx => ?_⟩
  simp only [createUserContainer_eq, hx]
  rcases vr with e | fi
  · simp
  · rcases sr with e | resp
    · simp
    · rcases hi : insertActive (insertPodVMConfig st r.podSandboxId
          { guestIP := fi.startVMResponse.guestIP, guestPort := guestPortValue })
          resp.containerId fi with e | st2 <;> simp [hi]

def rEmptyImage : CreateContainerRequest :=
  { podSandboxId := "pod-2",
    config := { name := "user-container",
                envs := [{ key := "GUEST_IMAGE", value := "" },
                         { key := "K_REVISION", value := "rev-9" }] } }

/-- C10 witness: an empty `GUEST_IMAGE` value is extracted as the empty
string and the VM supervisor is invoked with it. -/
theorem getters_accept_empty_value_witness :
    getGuestImage rEmptyImage.config = .ok "" ∧
    Event.callStartVM "" "rev-9" 256 1 ∈
      (createUserContainer st0 (.ok resp0) (.ok fi0) rEmptyImage).2.2 :=
  ⟨(getters_accept_empty_value rEmptyImage.config).1 "" rfl,
   (getters_accept_empty_value rEmptyImage.config).2.2.2.2 st0 (.ok resp0) (.ok fi0)
     rEmptyImage "rev-9" 256 1 rfl⟩
